import Mathlib

/-!
Shallow embedding of `src/browser/mod.rs` of the chromiumoxide (chromeoxid)
repository: the `Browser` facade (`execute`, `launch`, teardown), the
`BrowserConfig` / `BrowserConfigBuilder` pair, the spawn argument vector,
websocket-address discovery (`ws_url_from_output`) and chrome-executable
auto-detection (`default_executable`).

Rust strings are modelled as Lean `String`; the byte-level scanning helpers
(`starts_with`, `contains`, `rsplit`, `trim`) are modelled on `List Char`
(`String.data`).  Fallible operations return `Except`/`Option`; panics are
modelled as an explicit outcome constructor.  External collaborators
(the websocket `Connection`, the OS process table, `which`, the environment)
enter as function-valued parameters.
-/

namespace Chromiumoxide

/-! ### Character-list models of the Rust `str` operations used by the scanner -/

/-- Model of Rust `str::starts_with`: does `l` begin with `pre`?
(The match is structured so that the empty-pattern case never inspects `l`.) -/
def startsWithChars : List Char → List Char → Bool
  | [], _ => true
  | c :: cs, l =>
    match l with
    | [] => false
    | d :: ds => c == d && startsWithChars cs ds

/-- Model of Rust `str::contains` for a fixed pattern: does `pat` occur as a
contiguous sublevel of `l`? -/
def containsChars (pat : List Char) : List Char → Bool
  | [] => startsWithChars pat []
  | c :: t => startsWithChars pat (c :: t) || containsChars pat t

/-- Model of Rust `str::trim`: drop whitespace from both ends. -/
def trimChars (l : List Char) : List Char :=
  ((l.dropWhile Char.isWhitespace).reverse.dropWhile Char.isWhitespace).reverse

/-- The fixed marker phrase scanned for in the chromium diagnostic output
(`line.rsplit("listening on ")` in the source). -/
def wsMarker : List Char := "listening on ".data

/-- Fuel-based worker for `afterLastMarker` (structural recursion on the
fuel so that the definition computes by kernel reduction; every recursive
call strictly shortens the list, so fuel `l.length` is always enough). -/
def afterLastMarkerAux : Nat → List Char → Option (List Char)
  | 0, _ => none
  | _ + 1, [] => none
  | fuel + 1, c :: t =>
    if startsWithChars wsMarker (c :: t) then
      match afterLastMarkerAux fuel ((c :: t).drop wsMarker.length) with
      | some r => some r
      | none => some ((c :: t).drop wsMarker.length)
    else
      afterLastMarkerAux fuel t

/-- The segment of `l` strictly after the last occurrence of `wsMarker`,
or `none` when the marker does not occur.  `(afterLastMarker l).getD l` is
the model of `line.rsplit("listening on ").next().unwrap()` (the first item
`rsplit` yields is the segment after the last match, and the whole string
when there is no match; `wsMarker` has no self-overlap). -/
def afterLastMarker (l : List Char) : Option (List Char) :=
  afterLastMarkerAux l.length l

/-- The per-iteration check of `ws_url_from_output` on the accumulated line
buffer: take the segment after the last marker occurrence (the whole buffer
when the marker is absent), and if it starts with `"ws"` and contains
`"devtools/browser"`, return it trimmed. -/
def wsTokenOfLine (line : List Char) : Option (List Char) :=
  let ws := (afterLastMarker line).getD line
  if startsWithChars "ws".data ws && containsChars "devtools/browser".data ws then
    some (trimChars ws)
  else
    none

/-- One iteration of the scanning loop in `ws_url_from_output`.  A read is
`some chunk` for `read_line` returning `Ok` (the chunk — possibly empty —
is appended to the persistent line buffer, then the buffer is checked) and
`none` for `read_line` returning `Err` (the buffer is reset to empty and no
check happens).  Returns the new buffer and the check result. -/
def scanStep (buf : List Char) (r : Option (List Char)) :
    List Char × Option (List Char) :=
  match r with
  | some chunk => (buf ++ chunk, wsTokenOfLine (buf ++ chunk))
  | none => ([], none)

/-- The scanning loop of `ws_url_from_output`, run over a finite prefix of the
reads the blocking thread performs (the real loop runs until a match; `none`
as the overall result means no match within the observed reads). -/
def scanLoop : List (Option (List Char)) → List Char → Option (List Char)
  | [], _ => none
  | r :: rs, buf =>
    match scanStep buf r with
    | (_, some ws) => some ws
    | (b, none) => scanLoop rs b

/-- Model of `ws_url_from_output`: scan a sequence of reads of the child's
stderr (starting from an empty line buffer) for the devtools websocket url. -/
def ws_url_from_output (reads : List (Option String)) : Option String :=
  (scanLoop (reads.map (fun r => r.map String.data)) []).map (fun l => String.mk l)

/-! ### `Browser::execute` (reply handling) -/

/-- An incoming reply frame (`Response` in `chromeoxid_types`): a numeric id,
an optional result payload (of json type `J`) and an optional error payload
(of type `E`). -/
structure Response (J E : Type) where
  id : Nat
  result : Option J
  error : Option E

/-- The failure modes of `Browser::execute`, named as in the specification's
error taxonomy.  `handlerGone` covers both a closed control channel at
submission and a dropped reply slot. -/
inductive ExecError (E : Type) where
  | handlerGone
  | deserializationError
  | protocolError (err : E)
  | emptyReply

/-- The value `execute` resolves to on success (`CommandResponse` in the
source): the reply id, the deserialized result, and the command's method. -/
structure CommandResponse (R : Type) where
  id : Nat
  result : R
  method : String

/-- Model of the body of `Browser::execute`.  `sendOk` is whether the send on
the shared control channel succeeded (false = channel closed); `reply` is what
the oneshot reply slot produced (`none` = slot dropped, i.e. handler gone);
`deser` models `serde_json::from_value` for the command's declared response
type `R`. -/
def executeResult {J E R : Type} (method : String) (deser : J → Option R)
    (sendOk : Bool) (reply : Option (Response J E)) :
    Except (ExecError E) (CommandResponse R) :=
  if sendOk then
    match reply with
    | none => .error .handlerGone
    | some resp =>
      match resp.result with
      | some res =>
        match deser res with
        | some r => .ok { id := resp.id, result := r, method := method }
        | none => .error .deserializationError
      | none =>
        match resp.error with
        | some err => .error (.protocolError err)
        | none => .error .emptyReply
  else
    .error .handlerGone

/-! ### `BrowserConfig`, its builder, and the spawn command -/

/-- How a child process stream is wired (`std::process::Stdio`). -/
inductive StdioMode where
  | piped
  | inherited
deriving DecidableEq

/-- `BrowserConfig` as in the source.  Paths are strings; `window_size`
dimensions are naturals (Rust `u32`); `process_envs` models the
`Option<HashMap<String, String>>` as an association list. -/
structure BrowserConfig where
  headless : Bool
  sandbox : Bool
  window_size : Option (Nat × Nat)
  port : Nat
  executable : String
  extensions : List String
  process_envs : Option (List (String × String))
  user_data_dir : Option String

/-- `BrowserConfigBuilder` as in the source. -/
structure BrowserConfigBuilder where
  headless : Bool
  sandbox : Bool
  window_size : Option (Nat × Nat)
  port : Nat
  executable : Option String
  extensions : List String
  process_envs : Option (List (String × String))
  user_data_dir : Option String

/-- `Default for BrowserConfigBuilder`. -/
def BrowserConfigBuilder.default : BrowserConfigBuilder :=
  { headless := true, sandbox := true, window_size := none, port := 0,
    executable := none, extensions := [], process_envs := none,
    user_data_dir := none }

/-- `HashMap::insert` on the association-list model (replace an existing key,
otherwise append). -/
def insertEnv (l : List (String × String)) (key val : String) :
    List (String × String) :=
  if l.any (fun p => p.fst == key) then
    l.map (fun p => if p.fst == key then (key, val) else p)
  else
    l ++ [(key, val)]

/-- `BrowserConfigBuilder::window_size` (renamed: the field bears that name). -/
def BrowserConfigBuilder.set_window_size (b : BrowserConfigBuilder) (width height : Nat) :
    BrowserConfigBuilder :=
  { b with window_size := some (width, height) }

/-- `BrowserConfigBuilder::no_sandbox`. -/
def BrowserConfigBuilder.no_sandbox (b : BrowserConfigBuilder) : BrowserConfigBuilder :=
  { b with sandbox := false }

/-- `BrowserConfigBuilder::with_head`. -/
def BrowserConfigBuilder.with_head (b : BrowserConfigBuilder) : BrowserConfigBuilder :=
  { b with headless := false }

/-- `BrowserConfigBuilder::user_data_dir` (renamed: the field bears that name). -/
def BrowserConfigBuilder.set_user_data_dir (b : BrowserConfigBuilder) (dataDir : String) :
    BrowserConfigBuilder :=
  { b with user_data_dir := some dataDir }

/-- `BrowserConfigBuilder::chrome_executable`. -/
def BrowserConfigBuilder.chrome_executable (b : BrowserConfigBuilder) (path : String) :
    BrowserConfigBuilder :=
  { b with executable := some path }

/-- `BrowserConfigBuilder::extension`. -/
def BrowserConfigBuilder.extension (b : BrowserConfigBuilder) (ext : String) :
    BrowserConfigBuilder :=
  { b with extensions := b.extensions ++ [ext] }

/-- `BrowserConfigBuilder::env`. -/
def BrowserConfigBuilder.env (b : BrowserConfigBuilder) (key val : String) :
    BrowserConfigBuilder :=
  { b with process_envs := some (insertEnv (b.process_envs.getD []) key val) }

/-- `BrowserConfigBuilder::envs`. -/
def BrowserConfigBuilder.envs (b : BrowserConfigBuilder)
    (es : List (String × String)) : BrowserConfigBuilder :=
  { b with process_envs := some (es.foldl (fun acc kv => insertEnv acc kv.fst kv.snd) (b.process_envs.getD [])) }

/-- `BrowserConfigBuilder::build`.  `detected` models the
`default_executable()?` call used when no executable was set explicitly.
Note the source constructs the config with `process_envs: None` and
`user_data_dir: None` literally (lines 395-396 of `browser/mod.rs`). -/
def BrowserConfigBuilder.build (b : BrowserConfigBuilder)
    (detected : Except String String) : Except String BrowserConfig :=
  match (match b.executable with
         | some e => Except.ok e
         | none => detected) with
  | .error err => .error err
  | .ok exe =>
    .ok { headless := b.headless, sandbox := b.sandbox,
          window_size := b.window_size, port := b.port, executable := exe,
          extensions := b.extensions, process_envs := none,
          user_data_dir := none }

/-- A sample builder on which both an environment override and a user-data
directory were set (and an explicit executable, so that `build` needs no
auto-detection). -/
def c2Builder : BrowserConfigBuilder :=
  ((BrowserConfigBuilder.default.env "TZ" "UTC").set_user_data_dir
    "/tmp/profile").chrome_executable "/usr/bin/chromium"

/-- A fully concrete sample configuration. -/
def sampleConfig : BrowserConfig :=
  { headless := true, sandbox := false, window_size := some (1024, 768),
    port := 9222, executable := "/usr/bin/chromium",
    extensions := ["/ext/a", "/ext/b"], process_envs := none,
    user_data_dir := some "/tmp/u" }

/-- `DEFAULT_ARGS` from the source, verbatim. -/
def DEFAULT_ARGS : List String :=
  ["--disable-background-networking",
   "--enable-features=NetworkService,NetworkServiceInProcess",
   "--disable-background-timer-throttling",
   "--disable-backgrounding-occluded-windows",
   "--disable-breakpad",
   "--disable-client-side-phishing-detection",
   "--disable-component-extensions-with-background-pages",
   "--disable-default-apps",
   "--disable-dev-shm-usage",
   "--disable-extensions",
   "--disable-features=TranslateUI",
   "--disable-hang-monitor",
   "--disable-ipc-flooding-protection",
   "--disable-popup-blocking",
   "--disable-prompt-on-repost",
   "--disable-renderer-backgrounding",
   "--disable-sync",
   "--force-color-profile=srgb",
   "--metrics-recording-only",
   "--no-first-run",
   "--enable-automation",
   "--password-store=basic",
   "--use-mock-keychain"]

/-- `format ("--remote-debugging-port=" ++ port)`. -/
def portFlag (port : Nat) : String := "--remote-debugging-port=" ++ toString port

/-- The inline `args` array at the top of `BrowserConfig::launch`. -/
def baseArgs (port : Nat) : List String :=
  [portFlag port, "--disable-gpu", "--enable-logging", "--verbose",
   "--log-level=0", "--no-first-run", "--disable-audio-output"]

/-- One `--load-extension` flag. -/
def loadExtensionFlag (ext : String) : String := "--load-extension=" ++ ext

/-- The `--user-data-dir` flag, present exactly when a directory is set. -/
def userDataDirFlag : Option String → List String
  | some d => ["--user-data-dir=" ++ d]
  | none => []

/-- The `--window-size` flag, present exactly when a size is set. -/
def windowSizeFlag : Option (Nat × Nat) → List String
  | some (w, h) => ["--window-size=" ++ toString w ++ "," ++ toString h]
  | none => []

/-- The sandbox-disabling flags, pushed when `!self.sandbox`. -/
def sandboxFlags (sandbox : Bool) : List String :=
  if !sandbox then ["--no-sandbox", "--disable-setuid-sandbox"] else []

/-- The headless flags, pushed when `self.headless`. -/
def headlessFlags (headless : Bool) : List String :=
  if headless then ["--headless", "--hide-scrollbars", "--mute-audio"] else []

/-- The full argument vector `BrowserConfig::launch` passes to the child, in
the order the source pushes the pieces. -/
def launchArgs (c : BrowserConfig) : List String :=
  baseArgs c.port ++ DEFAULT_ARGS ++ c.extensions.map loadExtensionFlag
    ++ userDataDirFlag c.user_data_dir ++ windowSizeFlag c.window_size
    ++ sandboxFlags c.sandbox ++ headlessFlags c.headless

/-- The spawned `std::process::Command`, observationally: program, argument
vector, extra environment entries, and how stderr is wired. -/
structure SpawnedCommand where
  program : String
  args : List String
  envs : List (String × String)
  stderr : StdioMode

/-- Model of `BrowserConfig::launch`: build the command and spawn it with
`cmd.stderr(Stdio::piped())`.  The environment overrides applied are exactly
`process_envs` when present. -/
def BrowserConfig.launch (c : BrowserConfig) : SpawnedCommand :=
  { program := c.executable, args := launchArgs c,
    envs := c.process_envs.getD [], stderr := .piped }

/-- Number of arguments in `args` equal (as strings) to `target`. -/
def flagCount (args : List String) (target : String) : Nat :=
  args.countP (fun (a : String) => a.data == target.data)

/-- Number of arguments in `args` beginning with `pre`. -/
def flagCountWithStart (args : List String) (pre : String) : Nat :=
  args.countP (fun (a : String) => startsWithChars pre.data a.data)

/-! ### `Browser::launch` (the pipeline around discovery) -/

/-- Errors of the launch pipeline, named as in the specification's taxonomy. -/
inductive LaunchError where
  | processSpawn (msg : String)
  | discoveryTimeout
  | connectFailed (msg : String)
deriving DecidableEq

/-- The hard deadline `Duration::from_secs(20)` used by `Browser::launch`. -/
def discoveryDeadlineSecs : Nat := 20

/-- Model of `async_std::future::timeout`: `fut = some (t, a)` means the
wrapped future completes with `a` after `t` seconds, `none` that it never
completes; the result is `none` exactly when the deadline expired first. -/
def future_timeout {α : Type} (dur : Nat) (fut : Option (Nat × α)) : Option α :=
  match fut with
  | some (t, a) => if t < dur then some a else none
  | none => none

/-- Model of `Browser::launch` as a pipeline over the outcomes of its effectful
steps: spawning (`config.launch()?`), the discovery scan (`scan`, as a
completion time and url), and `Connection::connect`.  Each `?` propagates the
corresponding failure; the timeout wraps the scan with
`discoveryDeadlineSecs`. -/
def launchPipeline (spawnRes : Except String Unit) (scan : Option (Nat × String))
    (connect : String → Except String Unit) : Except LaunchError String :=
  match spawnRes with
  | .error e => .error (.processSpawn e)
  | .ok _ =>
    match future_timeout discoveryDeadlineSecs scan with
    | none => .error .discoveryTimeout
    | some url =>
      match connect url with
      | .error e => .error (.connectFailed e)
      | .ok _ => .ok url

/-! ### `default_executable` -/

/-- The fixed ordered search list of executable names from the source. -/
def chromeSearchList : List String :=
  ["google-chrome-stable", "chromium", "chromium-browser", "chrome",
   "chrome-browser"]

/-- The `for app in [...] { if let Ok(path) = which::which(app) ... }` loop:
the first name the `which` lookup resolves wins. -/
def firstWhich (which : String → Option String) : List String → Option String
  | [] => none
  | app :: rest =>
    match which app with
    | some p => some p
    | none => firstWhich which rest

/-- The part of `default_executable` after the `CHROME` check: the search
list, then the platform-specific well-known paths (checked for existence),
then the descriptive error. -/
def defaultExecutableSearch (pathExists : String → Bool)
    (which : String → Option String) (platformPaths : List String) :
    Except String String :=
  match firstWhich which chromeSearchList with
  | some p => .ok p
  | none =>
    match platformPaths.find? pathExists with
    | some p => .ok p
    | none => .error "Could not auto detect a chrome executable"

/-- Model of `default_executable`.  `chromeEnv` is the value of the `CHROME`
environment variable, `pathExists` models `Path::exists`, `which` models
`which::which`, and `platformPaths` the platform-specific well-known install
locations (empty on linux, the fixed application path on macos). -/
def default_executable (chromeEnv : Option String) (pathExists : String → Bool)
    (which : String → Option String) (platformPaths : List String) :
    Except String String :=
  match chromeEnv with
  | some path =>
    if pathExists path then .ok path
    else defaultExecutableSearch pathExists which platformPaths
  | none => defaultExecutableSearch pathExists which platformPaths

/-! ### `Browser` teardown (`Drop`) and the `Stream` impl -/

/-- A spawned child process, observed through the outcome its `kill()` call
would produce. -/
structure ChildProcess where
  killResult : Except String Unit

/-- What a teardown run does: either it completes, or it panics with the
given message. -/
inductive TeardownOutcome where
  | completed
  | panicked (msg : String)
deriving DecidableEq

/-- The `Browser` facade state relevant to teardown. -/
structure BrowserHandle where
  child : Option ChildProcess
  debug_ws_url : String

/-- Model of `impl Drop for Browser`: if a child is owned, call `kill()` and
`.expect("!kill")` the result — a failed kill panics the teardown. -/
def dropBrowser (b : BrowserHandle) : TeardownOutcome :=
  match b.child with
  | none => .completed
  | some child =>
    match child.killResult with
    | .ok _ => .completed
    | .error _ => .panicked "!kill"

/-- How many times teardown invokes `kill()` on the child. -/
def dropKillAttempts (b : BrowserHandle) : Nat :=
  match b.child with
  | none => 0
  | some _ => 1

/-- The outcome of one call to a `Stream::poll_next` implementation. -/
inductive PollNextOutcome (α : Type) where
  | panicked (msg : String)
  | ready (a : α)
  | pending

/-- Model of `impl Stream for Browser`: the body is `unimplemented!()`, so
every poll panics immediately. -/
def BrowserHandle.poll_next (_b : BrowserHandle) : PollNextOutcome (Option Unit) :=
  .panicked "not implemented"

/-! ## Helper lemmas -/

/-- `countP` vanishes on a mapped list when the predicate rejects every image. -/
theorem countP_map_eq_zero {α β : Type} (p : β → Bool) (f : α → β)
    (h : ∀ a, p (f a) = false) : ∀ l : List α, (l.map f).countP p = 0 := by
  intro l
  induction l with
  | nil => rfl
  | cons a t ih => simp [List.countP_cons, h, ih]

/-- `countP` counts everything on a mapped list when the predicate accepts
every image. -/
theorem countP_map_eq_length {α β : Type} (p : β → Bool) (f : α → β)
    (h : ∀ a, p (f a) = true) : ∀ l : List α, (l.map f).countP p = l.length := by
  intro l
  induction l with
  | nil => rfl
  | cons a t ih => simp [List.countP_cons, h, ih]

/-- `firstWhich` returns `none` when the lookup fails on every name. -/
theorem firstWhich_eq_none (which : String → Option String) :
    ∀ l : List String, (∀ nm ∈ l, which nm = none) → firstWhich which l = none := by
  intro l
  induction l with
  | nil => intro _; rfl
  | cons a t ih =>
    intro h
    have ha : which a = none := h a (List.mem_cons_self a t)
    simp [firstWhich, ha]
    exact ih fun nm hm => h nm (List.mem_cons_of_mem a hm)

/-- `firstWhich` returns the lookup result of the first name that resolves. -/
theorem firstWhich_first (which : String → Option String) :
    ∀ (l : List String) (i : Nat) (nm q : String), l[i]? = some nm →
      which nm = some q →
      (∀ j nm', j < i → l[j]? = some nm' → which nm' = none) →
      firstWhich which l = some q := by
  intro l
  induction l with
  | nil => intro i nm q h; simp at h
  | cons a t ih =>
    intro i nm q hget hq hprev
    cases i with
    | zero =>
      simp at hget
      subst hget
      simp [firstWhich, hq]
    | succ i =>
      have ha : which a = none := hprev 0 a (Nat.succ_pos i) (by simp)
      simp at hget
      simp [firstWhich, ha]
      exact ih i nm q hget hq fun j nm' hj hget' =>
        hprev (j + 1) nm' (Nat.succ_lt_succ hj) (by simpa using hget')

/-! ## Claims -/

/-- Claim C1: `Browser::execute` suspends until the reply slot resolves or the
channel closes; a closed channel (at send, or a dropped slot) fails with
`HandlerGone`; a reply with a result payload is deserialized against the
command's declared response type (`DeserializationError` on mismatch) and
returned; a reply with only an error payload fails with `ProtocolError`; a
reply with neither fails with `EmptyReplyError`; exactly one outcome occurs
(the modelled outcome is a single value of an `Except` type and the listed
cases are exhaustive and produce distinct constructors). -/
theorem c1_execute_outcomes {J E R : Type} (method : String) (deser : J → Option R) :
    (∀ reply : Option (Response J E),
      executeResult method deser false reply = .error .handlerGone)
    ∧ executeResult method deser true (none : Option (Response J E))
        = (Except.error ExecError.handlerGone : Except (ExecError E) (CommandResponse R))
    ∧ (∀ (id : Nat) (res : J) (err : Option E) (r : R), deser res = some r →
        executeResult method deser true (some ⟨id, some res, err⟩)
          = .ok ⟨id, r, method⟩)
    ∧ (∀ (id : Nat) (res : J) (err : Option E), deser res = none →
        executeResult method deser true (some ⟨id, some res, err⟩)
          = .error .deserializationError)
    ∧ (∀ (id : Nat) (err : E),
        executeResult method deser true (some ⟨id, none, some err⟩)
          = .error (.protocolError err))
    ∧ (∀ id : Nat,
        executeResult method deser true (some (⟨id, none, none⟩ : Response J E))
          = .error .emptyReply) := by
  refine ⟨fun reply => rfl, rfl, ?_, ?_, fun id err => rfl, fun id => rfl⟩
  · intro id res err r h
    simp [executeResult, h]
  · intro id res err h
    simp [executeResult, h]

/-- Witness for claim C1 at concrete inputs. -/
theorem c1_execute_outcomes_witness :
    executeResult "Target.createTarget" (fun n : Nat => some n) true
      (some (⟨3, some 7, none⟩ : Response Nat String))
      = .ok ⟨3, 7, "Target.createTarget"⟩ :=
  (c1_execute_outcomes "Target.createTarget" (fun n : Nat => some n)).2.2.1
    3 7 none 7 rfl

/-- Claim C2 (refuted by the code): the builder records the environment
overrides and the user-data directory, but `build` constructs the config with
`process_envs: None` and `user_data_dir: None`, dropping both; consequently
the launched command applies no environment overrides and passes no
`--user-data-dir` flag. -/
theorem c2_build_drops_envs_and_user_data_dir :
    c2Builder.process_envs = some [("TZ", "UTC")]
    ∧ c2Builder.user_data_dir = some "/tmp/profile"
    ∧ (∀ detected : Except String String,
        c2Builder.build detected = Except.ok
          { headless := true, sandbox := true, window_size := none, port := 0,
            executable := "/usr/bin/chromium", extensions := [],
            process_envs := none, user_data_dir := none })
    ∧ (c2Builder.build (Except.ok "/ignored")).toOption.map
        (fun c => c.launch.envs) = some []
    ∧ (c2Builder.build (Except.ok "/ignored")).toOption.map
        (fun c => flagCountWithStart (launchArgs c) "--user-data-dir=")
        = some 0 := by
  refine ⟨by decide, by decide, fun detected => rfl, rfl, by decide⟩

/-- Claim C3 (refuted by the code): teardown attempts the kill exactly once,
but a failing `kill()` panics the teardown path via `.expect("!kill")` instead
of being reported non-fatally. -/
theorem c3_drop_panics_on_kill_failure :
    dropBrowser ⟨some ⟨Except.error "EPERM"⟩, "ws://127.0.0.1:9222/x"⟩
      = .panicked "!kill"
    ∧ dropKillAttempts ⟨some ⟨Except.error "EPERM"⟩, "ws://127.0.0.1:9222/x"⟩ = 1
    ∧ dropBrowser ⟨some ⟨Except.ok ()⟩, "ws://127.0.0.1:9222/x"⟩ = .completed :=
  ⟨rfl, rfl, rfl⟩

/-- Claim C5: `Browser::launch` wraps the discovery scan with a deadline of
exactly 20 seconds; when no matching line is found before the deadline, the
pipeline fails with `DiscoveryTimeout` — and in particular never reaches the
connect step (the outcome is `DiscoveryTimeout` for every `connect`). -/
theorem c5_discovery_deadline :
    discoveryDeadlineSecs = 20
    ∧ (∀ (scan : Option (Nat × String)) (connect : String → Except String Unit),
        (∀ t url, scan = some (t, url) → discoveryDeadlineSecs ≤ t) →
        launchPipeline (Except.ok ()) scan connect = .error .discoveryTimeout) := by
  refine ⟨rfl, ?_⟩
  intro scan connect h
  cases scan with
  | none => rfl
  | some p =>
    obtain ⟨t, url⟩ := p
    have ht : discoveryDeadlineSecs ≤ t := h t url rfl
    simp [launchPipeline, future_timeout, Nat.not_lt.mpr ht]

/-- Witness for claim C5: a scan that never completes times out. -/
theorem c5_discovery_deadline_witness :
    launchPipeline (Except.ok ()) none (fun _ => Except.ok ())
      = .error .discoveryTimeout :=
  c5_discovery_deadline.2 none (fun _ => Except.ok ()) (fun _ _ h => nomatch h)

/-- Claim C6: `default_executable` resolution order: a `CHROME` override that
names an existing path wins (whatever the search list would find); otherwise
the first name of the fixed search list that `which` resolves wins; otherwise
the platform-specific well-known locations are consulted; otherwise the
descriptive no-executable-found error is returned. -/
theorem c6_default_executable_resolution (pathExists : String → Bool)
    (which : String → Option String) (platformPaths : List String) :
    (∀ p, pathExists p = true →
      default_executable (some p) pathExists which platformPaths = .ok p)
    ∧ (∀ (i : Nat) (nm q : String), chromeSearchList[i]? = some nm →
        which nm = some q →
        (∀ (j : Nat) (nm' : String), j < i → chromeSearchList[j]? = some nm' →
          which nm' = none) →
        default_executable none pathExists which platformPaths = .ok q)
    ∧ ((∀ nm ∈ chromeSearchList, which nm = none) →
        ∀ q, platformPaths.find? pathExists = some q →
        default_executable none pathExists which platformPaths = .ok q)
    ∧ ((∀ nm ∈ chromeSearchList, which nm = none) →
        platformPaths.find? pathExists = none →
        default_executable none pathExists which platformPaths
          = .error "Could not auto detect a chrome executable") := by
  refine ⟨?_, ?_, ?_, ?_⟩
  · intro p hp
    simp [default_executable, hp]
  · intro i nm q hget hq hprev
    have hfw : firstWhich which chromeSearchList = some q :=
      firstWhich_first which chromeSearchList i nm q hget hq hprev
    simp [default_executable, defaultExecutableSearch, hfw]
  · intro hnone q hfind
    have hfw : firstWhich which chromeSearchList = none :=
      firstWhich_eq_none which chromeSearchList hnone
    simp [default_executable, defaultExecutableSearch, hfw, hfind]
  · intro hnone hfind
    have hfw : firstWhich which chromeSearchList = none :=
      firstWhich_eq_none which chromeSearchList hnone
    simp [default_executable, defaultExecutableSearch, hfw, hfind]

/-- Witness for claim C6: the override wins when its path exists, even though
a search-list entry also resolves. -/
theorem c6_default_executable_resolution_witness :
    default_executable (some "/opt/chrome") (fun _ => true)
      (fun _ => some "/usr/bin/chromium") []
      = .ok "/opt/chrome" :=
  (c6_default_executable_resolution (fun _ => true)
    (fun _ => some "/usr/bin/chromium") []).1 "/opt/chrome" rfl

/-- Claim C9: the `Stream` impl for `Browser` is `unimplemented!()`: polling
any `Browser` value panics on the very first poll. -/
theorem c9_poll_next_panics (b : BrowserHandle) :
    b.poll_next = PollNextOutcome.panicked "not implemented" := rfl

/-- Witness for claim C9 at a concrete handle. -/
theorem c9_poll_next_panics_witness :
    BrowserHandle.poll_next ⟨none, "ws://127.0.0.1:9222/y"⟩
      = PollNextOutcome.panicked "not implemented" :=
  c9_poll_next_panics ⟨none, "ws://127.0.0.1:9222/y"⟩

/-- Claim C10: a `CHROME` override naming a path that does not exist is
silently ignored — resolution proceeds exactly as if the variable were
unset. -/
theorem c10_chrome_env_nonexistent_falls_through (p : String)
    (pathExists : String → Bool) (which : String → Option String)
    (platformPaths : List String) (h : pathExists p = false) :
    default_executable (some p) pathExists which platformPaths
      = default_executable none pathExists which platformPaths := by
  simp [default_executable, h]

/-- Witness for claim C10. -/
theorem c10_chrome_env_nonexistent_falls_through_witness :
    default_executable (some "/nope") (fun _ => false) (fun _ => none) []
      = default_executable none (fun _ => false) (fun _ => none) [] :=
  c10_chrome_env_nonexistent_falls_through "/nope" (fun _ => false)
    (fun _ => none) [] rfl

/-- Claim C4 (counterexample): the scanner accepts a token that follows no
occurrence of the marker phrase at all — for a stream whose single line
contains no "listening on " anywhere, discovery still returns the line
(because `rsplit(..).next()` yields the whole string when the pattern is
absent), so the returned address is not "a token that follows the fixed
marker phrase". -/
theorem c4_returns_token_without_marker :
    containsChars wsMarker "ws://a/devtools/browser/b\n".data = false
    ∧ ws_url_from_output [some "ws://a/devtools/browser/b\n"]
        = some "ws://a/devtools/browser/b" := by
  exact ⟨by decide, by decide⟩

/-- Claim C4 as amended: after each successful read (reads accumulate in a
persistent buffer) the scanner takes the segment after the last occurrence of
the marker phrase in the buffer — the whole buffer when the marker is absent —
and returns it trimmed if it starts with the scheme prefix "ws" and contains
the path marker "devtools/browser"; the first read whose check succeeds wins
(later reads are never consulted).  In particular, for an unrelated line
followed by the line "DevTools listening on
ws://127.0.0.1:9222/devtools/browser/abc123", the discovered address is
exactly ws://127.0.0.1:9222/devtools/browser/abc123. -/
theorem c4_discovery_address :
    ws_url_from_output [some "Some unrelated line\n",
        some "DevTools listening on ws://127.0.0.1:9222/devtools/browser/abc123\n"]
      = some "ws://127.0.0.1:9222/devtools/browser/abc123"
    ∧ (∀ (buf chunk : List Char) (rs : List (Option (List Char))) (u : List Char),
        wsTokenOfLine (buf ++ chunk) = some u →
        scanLoop (some chunk :: rs) buf = some u) := by
  refine ⟨by decide, ?_⟩
  intro buf chunk rs u h
  simp [scanLoop, scanStep, h]

/-- Witness for the amended claim C4: the first matching read wins and the
later read is never consulted. -/
theorem c4_discovery_address_witness :
    scanLoop [some "DevTools listening on ws://127.0.0.1:9222/devtools/browser/abc123\n".data,
        some "a later line that is never read\n".data] []
      = some "ws://127.0.0.1:9222/devtools/browser/abc123".data :=
  c4_discovery_address.2 []
    "DevTools listening on ws://127.0.0.1:9222/devtools/browser/abc123\n".data
    [some "a later line that is never read\n".data]
    "ws://127.0.0.1:9222/devtools/browser/abc123".data (by decide)

/-- Claim C8 (counterexample): a non-matching line is NOT discarded — the
buffer after processing it still holds it (`read_line` appends and the loop
never clears it), and this retention is observable: a stream whose second
line alone would match is missed, because the retained first line makes the
accumulated buffer fail the check. -/
theorem c8_nonmatching_line_retained :
    (scanStep [] (some "foo listening on bar\n".data)).fst
      = "foo listening on bar\n".data
    ∧ (scanStep [] (some "foo listening on bar\n".data)).snd = none
    ∧ wsTokenOfLine "ws://x/devtools/browser/y\n".data
        = some "ws://x/devtools/browser/y".data
    ∧ ws_url_from_output [some "foo listening on bar\n",
        some "ws://x/devtools/browser/y\n"] = none := by
  exact ⟨rfl, by decide, by decide, by decide⟩

/-- Claim C8 as amended: a successful read appends to the persistent line
buffer (non-matching content is retained, not discarded); only a FAILED read
resets the buffer to empty, after which scanning continues; a successful read
that yields no data leaves the buffer unchanged and scanning continues — in
no case does a no-data read terminate the scan (the loop only ever returns on
a successful check). -/
theorem c8_buffer_behavior :
    (∀ buf chunk : List Char, (scanStep buf (some chunk)).fst = buf ++ chunk)
    ∧ (∀ buf : List Char, scanStep buf none = ([], none))
    ∧ (∀ (rs : List (Option (List Char))) (buf : List Char),
        scanLoop (none :: rs) buf = scanLoop rs [])
    ∧ (∀ (rs : List (Option (List Char))) (buf : List Char),
        wsTokenOfLine buf = none →
        scanLoop (some [] :: rs) buf = scanLoop rs buf) := by
  refine ⟨fun buf chunk => rfl, fun buf => rfl, fun rs buf => rfl, ?_⟩
  intro rs buf h
  simp [scanLoop, scanStep, h]

/-- Witness for the amended claim C8: an empty successful read on a
non-matching buffer just continues the scan with the same buffer. -/
theorem c8_buffer_behavior_witness :
    scanLoop [some []] "junk\n".data = scanLoop [] "junk\n".data :=
  c8_buffer_behavior.2.2.2 [] "junk\n".data (by decide)

/-- `countP` over the full argument vector splits into the seven pieces. -/
theorem countP_launchArgs (c : BrowserConfig) (p : String → Bool) :
    (launchArgs c).countP p
      = (baseArgs c.port).countP p + DEFAULT_ARGS.countP p
        + (c.extensions.map loadExtensionFlag).countP p
        + (userDataDirFlag c.user_data_dir).countP p
        + (windowSizeFlag c.window_size).countP p
        + (sandboxFlags c.sandbox).countP p
        + (headlessFlags c.headless).countP p := by
  simp [launchArgs, List.countP_append]
  omega

/-- The `--load-extension` flags are exactly one per configured extension. -/
theorem count_loadExtension (c : BrowserConfig) :
    flagCountWithStart (launchArgs c) "--load-extension=" = c.extensions.length := by
  unfold flagCountWithStart
  rw [countP_launchArgs]
  rw [countP_map_eq_length (fun (a : String) => startsWithChars "--load-extension=".data a.data)
      loadExtensionFlag (fun e => rfl) c.extensions]
  have h1 : (baseArgs c.port).countP
      (fun (a : String) => startsWithChars "--load-extension=".data a.data) = 0 := rfl
  have h2 : DEFAULT_ARGS.countP
      (fun (a : String) => startsWithChars "--load-extension=".data a.data) = 0 := rfl
  have h4 : (userDataDirFlag c.user_data_dir).countP
      (fun (a : String) => startsWithChars "--load-extension=".data a.data) = 0 := by
    rcases c.user_data_dir with _ | d <;> rfl
  have h5 : (windowSizeFlag c.window_size).countP
      (fun (a : String) => startsWithChars "--load-extension=".data a.data) = 0 := by
    rcases c.window_size with _ | ⟨w, h⟩ <;> rfl
  have h6 : (sandboxFlags c.sandbox).countP
      (fun (a : String) => startsWithChars "--load-extension=".data a.data) = 0 := by
    cases c.sandbox <;> rfl
  have h7 : (headlessFlags c.headless).countP
      (fun (a : String) => startsWithChars "--load-extension=".data a.data) = 0 := by
    cases c.headless <;> rfl
  rw [h1, h2, h4, h5, h6, h7]
  omega

/-- The `--user-data-dir` flag appears exactly when a directory is set. -/
theorem count_userDataDir (c : BrowserConfig) :
    flagCountWithStart (launchArgs c) "--user-data-dir="
      = if c.user_data_dir.isSome then 1 else 0 := by
  unfold flagCountWithStart
  rw [countP_launchArgs]
  rw [countP_map_eq_zero (fun (a : String) => startsWithChars "--user-data-dir=".data a.data)
      loadExtensionFlag (fun e => rfl) c.extensions]
  have h1 : (baseArgs c.port).countP
      (fun (a : String) => startsWithChars "--user-data-dir=".data a.data) = 0 := rfl
  have h2 : DEFAULT_ARGS.countP
      (fun (a : String) => startsWithChars "--user-data-dir=".data a.data) = 0 := rfl
  have h4 : (userDataDirFlag c.user_data_dir).countP
      (fun (a : String) => startsWithChars "--user-data-dir=".data a.data)
      = if c.user_data_dir.isSome then 1 else 0 := by
    rcases c.user_data_dir with _ | d <;> rfl
  have h5 : (windowSizeFlag c.window_size).countP
      (fun (a : String) => startsWithChars "--user-data-dir=".data a.data) = 0 := by
    rcases c.window_size with _ | ⟨w, h⟩ <;> rfl
  have h6 : (sandboxFlags c.sandbox).countP
      (fun (a : String) => startsWithChars "--user-data-dir=".data a.data) = 0 := by
    cases c.sandbox <;> rfl
  have h7 : (headlessFlags c.headless).countP
      (fun (a : String) => startsWithChars "--user-data-dir=".data a.data) = 0 := by
    cases c.headless <;> rfl
  rw [h1, h2, h4, h5, h6, h7]
  omega

/-- The `--window-size` flag appears exactly when a window size is set. -/
theorem count_windowSize (c : BrowserConfig) :
    flagCountWithStart (launchArgs c) "--window-size="
      = if c.window_size.isSome then 1 else 0 := by
  unfold flagCountWithStart
  rw [countP_launchArgs]
  rw [countP_map_eq_zero (fun (a : String) => startsWithChars "--window-size=".data a.data)
      loadExtensionFlag (fun e => rfl) c.extensions]
  have h1 : (baseArgs c.port).countP
      (fun (a : String) => startsWithChars "--window-size=".data a.data) = 0 := rfl
  have h2 : DEFAULT_ARGS.countP
      (fun (a : String) => startsWithChars "--window-size=".data a.data) = 0 := rfl
  have h4 : (userDataDirFlag c.user_data_dir).countP
      (fun (a : String) => startsWithChars "--window-size=".data a.data) = 0 := by
    rcases c.user_data_dir with _ | d <;> rfl
  have h5 : (windowSizeFlag c.window_size).countP
      (fun (a : String) => startsWithChars "--window-size=".data a.data)
      = if c.window_size.isSome then 1 else 0 := by
    rcases c.window_size with _ | ⟨w, h⟩ <;> rfl
  have h6 : (sandboxFlags c.sandbox).countP
      (fun (a : String) => startsWithChars "--window-size=".data a.data) = 0 := by
    cases c.sandbox <;> rfl
  have h7 : (headlessFlags c.headless).countP
      (fun (a : String) => startsWithChars "--window-size=".data a.data) = 0 := by
    cases c.headless <;> rfl
  rw [h1, h2, h4, h5, h6, h7]
  omega

/-- `--no-sandbox` appears exactly when the sandbox is disabled. -/
theorem count_noSandbox (c : BrowserConfig) :
    flagCount (launchArgs c) "--no-sandbox" = if c.sandbox then 0 else 1 := by
  unfold flagCount
  rw [countP_launchArgs]
  rw [countP_map_eq_zero (fun (a : String) => a.data == "--no-sandbox".data)
      loadExtensionFlag (fun e => rfl) c.extensions]
  have h1 : (baseArgs c.port).countP (fun (a : String) => a.data == "--no-sandbox".data) = 0 := rfl
  have h2 : DEFAULT_ARGS.countP (fun (a : String) => a.data == "--no-sandbox".data) = 0 := rfl
  have h4 : (userDataDirFlag c.user_data_dir).countP
      (fun (a : String) => a.data == "--no-sandbox".data) = 0 := by
    rcases c.user_data_dir with _ | d <;> rfl
  have h5 : (windowSizeFlag c.window_size).countP
      (fun (a : String) => a.data == "--no-sandbox".data) = 0 := by
    rcases c.window_size with _ | ⟨w, h⟩ <;> rfl
  have h6 : (sandboxFlags c.sandbox).countP
      (fun (a : String) => a.data == "--no-sandbox".data) = if c.sandbox then 0 else 1 := by
    cases c.sandbox <;> rfl
  have h7 : (headlessFlags c.headless).countP
      (fun (a : String) => a.data == "--no-sandbox".data) = 0 := by
    cases c.headless <;> rfl
  rw [h1, h2, h4, h5, h6, h7]
  omega

/-- `--disable-setuid-sandbox` appears exactly when the sandbox is disabled. -/
theorem count_setuidSandbox (c : BrowserConfig) :
    flagCount (launchArgs c) "--disable-setuid-sandbox"
      = if c.sandbox then 0 else 1 := by
  unfold flagCount
  rw [countP_launchArgs]
  rw [countP_map_eq_zero (fun (a : String) => a.data == "--disable-setuid-sandbox".data)
      loadExtensionFlag (fun e => rfl) c.extensions]
  have h1 : (baseArgs c.port).countP
      (fun (a : String) => a.data == "--disable-setuid-sandbox".data) = 0 := rfl
  have h2 : DEFAULT_ARGS.countP
      (fun (a : String) => a.data == "--disable-setuid-sandbox".data) = 0 := rfl
  have h4 : (userDataDirFlag c.user_data_dir).countP
      (fun (a : String) => a.data == "--disable-setuid-sandbox".data) = 0 := by
    rcases c.user_data_dir with _ | d <;> rfl
  have h5 : (windowSizeFlag c.window_size).countP
      (fun (a : String) => a.data == "--disable-setuid-sandbox".data) = 0 := by
    rcases c.window_size with _ | ⟨w, h⟩ <;> rfl
  have h6 : (sandboxFlags c.sandbox).countP
      (fun (a : String) => a.data == "--disable-setuid-sandbox".data)
      = if c.sandbox then 0 else 1 := by
    cases c.sandbox <;> rfl
  have h7 : (headlessFlags c.headless).countP
      (fun (a : String) => a.data == "--disable-setuid-sandbox".data) = 0 := by
    cases c.headless <;> rfl
  rw [h1, h2, h4, h5, h6, h7]
  omega

/-- `--headless` appears exactly when headless is configured. -/
theorem count_headless (c : BrowserConfig) :
    flagCount (launchArgs c) "--headless" = if c.headless then 1 else 0 := by
  unfold flagCount
  rw [countP_launchArgs]
  rw [countP_map_eq_zero (fun (a : String) => a.data == "--headless".data)
      loadExtensionFlag (fun e => rfl) c.extensions]
  have h1 : (baseArgs c.port).countP (fun (a : String) => a.data == "--headless".data) = 0 := rfl
  have h2 : DEFAULT_ARGS.countP (fun (a : String) => a.data == "--headless".data) = 0 := rfl
  have h4 : (userDataDirFlag c.user_data_dir).countP
      (fun (a : String) => a.data == "--headless".data) = 0 := by
    rcases c.user_data_dir with _ | d <;> rfl
  have h5 : (windowSizeFlag c.window_size).countP
      (fun (a : String) => a.data == "--headless".data) = 0 := by
    rcases c.window_size with _ | ⟨w, h⟩ <;> rfl
  have h6 : (sandboxFlags c.sandbox).countP
      (fun (a : String) => a.data == "--headless".data) = 0 := by
    cases c.sandbox <;> rfl
  have h7 : (headlessFlags c.headless).countP
      (fun (a : String) => a.data == "--headless".data) = if c.headless then 1 else 0 := by
    cases c.headless <;> rfl
  rw [h1, h2, h4, h5, h6, h7]
  omega

/-- `--hide-scrollbars` appears exactly when headless is configured. -/
theorem count_hideScrollbars (c : BrowserConfig) :
    flagCount (launchArgs c) "--hide-scrollbars" = if c.headless then 1 else 0 := by
  unfold flagCount
  rw [countP_launchArgs]
  rw [countP_map_eq_zero (fun (a : String) => a.data == "--hide-scrollbars".data)
      loadExtensionFlag (fun e => rfl) c.extensions]
  have h1 : (baseArgs c.port).countP
      (fun (a : String) => a.data == "--hide-scrollbars".data) = 0 := rfl
  have h2 : DEFAULT_ARGS.countP
      (fun (a : String) => a.data == "--hide-scrollbars".data) = 0 := rfl
  have h4 : (userDataDirFlag c.user_data_dir).countP
      (fun (a : String) => a.data == "--hide-scrollbars".data) = 0 := by
    rcases c.user_data_dir with _ | d <;> rfl
  have h5 : (windowSizeFlag c.window_size).countP
      (fun (a : String) => a.data == "--hide-scrollbars".data) = 0 := by
    rcases c.window_size with _ | ⟨w, h⟩ <;> rfl
  have h6 : (sandboxFlags c.sandbox).countP
      (fun (a : String) => a.data == "--hide-scrollbars".data) = 0 := by
    cases c.sandbox <;> rfl
  have h7 : (headlessFlags c.headless).countP
      (fun (a : String) => a.data == "--hide-scrollbars".data)
      = if c.headless then 1 else 0 := by
    cases c.headless <;> rfl
  rw [h1, h2, h4, h5, h6, h7]
  omega

/-- `--mute-audio` appears exactly when headless is configured. -/
theorem count_muteAudio (c : BrowserConfig) :
    flagCount (launchArgs c) "--mute-audio" = if c.headless then 1 else 0 := by
  unfold flagCount
  rw [countP_launchArgs]
  rw [countP_map_eq_zero (fun (a : String) => a.data == "--mute-audio".data)
      loadExtensionFlag (fun e => rfl) c.extensions]
  have h1 : (baseArgs c.port).countP (fun (a : String) => a.data == "--mute-audio".data) = 0 := rfl
  have h2 : DEFAULT_ARGS.countP (fun (a : String) => a.data == "--mute-audio".data) = 0 := rfl
  have h4 : (userDataDirFlag c.user_data_dir).countP
      (fun (a : String) => a.data == "--mute-audio".data) = 0 := by
    rcases c.user_data_dir with _ | d <;> rfl
  have h5 : (windowSizeFlag c.window_size).countP
      (fun (a : String) => a.data == "--mute-audio".data) = 0 := by
    rcases c.window_size with _ | ⟨w, h⟩ <;> rfl
  have h6 : (sandboxFlags c.sandbox).countP
      (fun (a : String) => a.data == "--mute-audio".data) = 0 := by
    cases c.sandbox <;> rfl
  have h7 : (headlessFlags c.headless).countP
      (fun (a : String) => a.data == "--mute-audio".data) = if c.headless then 1 else 0 := by
    cases c.headless <;> rfl
  rw [h1, h2, h4, h5, h6, h7]
  omega

/-- Claim C7: the child's argument vector contains the fixed baseline flags
(both the inline stability flags and `DEFAULT_ARGS`), the debugging-port flag
derived from the configured port, exactly one `--window-size` flag when a
window size is configured (none otherwise), the two sandbox-disabling flags
exactly when the sandbox is disabled, the three headless flags exactly when
headless is configured, one `--load-extension` flag per configured extension,
and exactly one `--user-data-dir` flag when a user-data directory is
configured (none otherwise); the spawned command's stderr is piped, not
inherited. -/
theorem c7_launch_command (c : BrowserConfig) :
    portFlag c.port ∈ launchArgs c
    ∧ baseArgs c.port ⊆ launchArgs c
    ∧ DEFAULT_ARGS ⊆ launchArgs c
    ∧ flagCountWithStart (launchArgs c) "--load-extension=" = c.extensions.length
    ∧ flagCountWithStart (launchArgs c) "--user-data-dir="
        = (if c.user_data_dir.isSome then 1 else 0)
    ∧ flagCountWithStart (launchArgs c) "--window-size="
        = (if c.window_size.isSome then 1 else 0)
    ∧ flagCount (launchArgs c) "--no-sandbox" = (if c.sandbox then 0 else 1)
    ∧ flagCount (launchArgs c) "--disable-setuid-sandbox"
        = (if c.sandbox then 0 else 1)
    ∧ flagCount (launchArgs c) "--headless" = (if c.headless then 1 else 0)
    ∧ flagCount (launchArgs c) "--hide-scrollbars" = (if c.headless then 1 else 0)
    ∧ flagCount (launchArgs c) "--mute-audio" = (if c.headless then 1 else 0)
    ∧ c.launch.args = launchArgs c
    ∧ c.launch.stderr = StdioMode.piped := by
  refine ⟨?_, ?_, ?_, count_loadExtension c, count_userDataDir c,
    count_windowSize c, count_noSandbox c, count_setuidSandbox c,
    count_headless c, count_hideScrollbars c, count_muteAudio c, rfl, rfl⟩
  · have hp : portFlag c.port ∈ baseArgs c.port := by simp [baseArgs]
    simp [launchArgs, List.mem_append]
    tauto
  · intro a ha
    simp [launchArgs, List.mem_append]
    tauto
  · intro a ha
    simp [launchArgs, List.mem_append]
    tauto

/-- Witness for claim C7 at a fully concrete configuration. -/
theorem c7_launch_command_witness :
    flagCountWithStart (launchArgs sampleConfig) "--load-extension="
      = sampleConfig.extensions.length :=
  (c7_launch_command sampleConfig).2.2.2.1

end Chromiumoxide
